import Mathlib

/-!
Shallow embedding of the budget-monitoring service
(src/lib/services/budget-monitoring.ts) and of the receipt field extractor
(AWSTextractService.extractDataFromText together with parseIndianDate and
mapPaymentMethod in src/lib/services/ocr-service.ts) of the spendsmart
repository, with theorems checking the specification's claims about them.

Modelling conventions:
* TypeScript numbers are modelled as rationals; all values reached by the
  claims are decimal literals, so no floating-point rounding is involved.
  Division by a negative amount behaves as in the source; the single
  divergence between rationals and IEEE doubles (division by exactly zero)
  is avoided by every statement below.
* Timestamps are modelled in hours as rationals (only differences of
  timestamps matter to the monitored code).
* Fallible awaited calls (the Prisma lookups) are modelled with Except.
* The JavaScript runtime's local time zone is modelled as UTC, so
  new Date(y, m, d).toISOString().split('T')[0] is the calendar date
  obtained from (y, m, d) by JavaScript's month/day rollover.
* JavaScript regular expressions are embedded as a small regex AST
  (character classes, greedy bounded class repetition, one capture group,
  sequencing, prioritized alternation, end anchor) with a backtracking
  matcher that reproduces the leftmost-match, greedy-with-backtracking,
  first-alternative-first semantics of the JS engine on exactly the
  constructs the source patterns use.
-/

set_option autoImplicit false

namespace SpendSmart

/-! ## Budget monitoring (BudgetMonitoringService) -/

/-- Alert tiers of a budget evaluation; NONE means no alert branch fires. -/
inductive Tier where
  | NONE
  | WARNING
  | EXCEEDED
deriving DecidableEq, Repr

/-- Result of evaluating one budget: the computed percentage and the tier. -/
structure EvalResult where
  percentage : ℚ
  tier : Tier
deriving DecidableEq, Repr

/-- The evaluation fragment of BudgetMonitoringService.checkBudgetsAndNotify
(budget-monitoring.ts lines 37, 46, 56): percentage = (spent / amount) * 100,
and the tier given by the two alert branch conditions (percentage >= 100,
respectively percentage >= threshold && percentage < 100) with the
deduplication lookups factored out; they are modelled in processBudget. -/
def evaluate (amount spent threshold : ℚ) : EvalResult :=
  let percentage := spent / amount * 100
  { percentage := percentage
    tier :=
      if 100 ≤ percentage then Tier.EXCEEDED
      else if threshold ≤ percentage ∧ percentage < 100 then Tier.WARNING
      else Tier.NONE }

/-- Notification types relevant to the monitored code (Prisma enum
NotificationType; only the budget kinds are compared by the dedup check). -/
inductive NotificationType where
  | BUDGET_WARNING
  | BUDGET_EXCEEDED
  | EXPENSE_REMINDER
  | WEEKLY_SUMMARY
deriving DecidableEq, Repr

/-- A stored notification, reduced to the columns the dedup query reads
(relatedId, type, createdAt).  createdAt is in hours. -/
structure Notification where
  relatedId : Nat
  ntype : NotificationType
  createdAt : ℚ
deriving DecidableEq, Repr

/-- BudgetMonitoringService.hasRecentNotification (lines 104-117): true iff
the store holds a notification with the given relatedId, with type
BUDGET_EXCEEDED when the argument is BUDGET_EXCEEDED and BUDGET_WARNING
otherwise, created at or after now - 24 hours. -/
def hasRecentNotification (store : List Notification) (now : ℚ)
    (budgetId : Nat) (t : NotificationType) : Bool :=
  let oneDayAgo := now - 24
  store.any fun n =>
    n.relatedId == budgetId &&
    n.ntype == (if t = NotificationType.BUDGET_EXCEEDED then
        NotificationType.BUDGET_EXCEEDED else NotificationType.BUDGET_WARNING) &&
    decide (oneDayAgo ≤ n.createdAt)

/-- The deduplication decision as the call sites use it (lines 46 and 56 negate
hasRecentNotification): true means emit the candidate alert. -/
def shouldEmit (store : List Notification) (now : ℚ)
    (t : NotificationType) (budgetId : Nat) : Bool :=
  !hasRecentNotification store now budgetId t

/-- Per-user notification preference, reduced to the two fields the pass reads
(Prisma model NotificationPreference: budgetAlerts Boolean, budgetThreshold
Int non-nullable with default 80). -/
structure NotificationPreference where
  budgetAlerts : Bool
  budgetThreshold : ℚ
deriving DecidableEq, Repr

/-- The default preference record created by GET /api/notifications/preferences
(preferences/route.ts lines 30-43) when no record exists for the user,
restricted to the two fields the monitoring pass reads. -/
def defaultPreferences : NotificationPreference :=
  { budgetAlerts := true, budgetThreshold := 80 }

/-- A budget as the monitoring loop sees it: its id, its amount, and the
owning user's included notificationPreference (absent when the user has no
preference record). -/
structure Budget where
  id : Nat
  amount : ℚ
  preference : Option NotificationPreference
deriving DecidableEq, Repr

/-- Candidate alert kinds pushed by the loop (field type of BudgetAlert). -/
inductive AlertKind where
  | WARNING
  | EXCEEDED
deriving DecidableEq, Repr

/-- The BudgetAlert record pushed by the loop (interface BudgetAlert, minus
the display-only userId and categoryName fields). -/
structure BudgetAlert where
  budgetId : Nat
  spent : ℚ
  budget : ℚ
  percentage : ℚ
  atype : AlertKind
deriving DecidableEq, Repr

/-- The body of the per-budget loop of checkBudgetsAndNotify (lines 35-67)
for one budget with its precomputed spent total: compute the percentage,
skip when the preference record is absent or budgetAlerts is off, default
the threshold to 80 when budgetThreshold is falsy (0), then run the two
alert branches with their dedup checks. -/
def processBudget (store : List Notification) (now : ℚ) (b : Budget)
    (spent : ℚ) : Option BudgetAlert :=
  let percentage := spent / b.amount * 100
  match b.preference with
  | none => none
  | some preferences =>
    if preferences.budgetAlerts = false then none
    else
      let threshold :=
        if preferences.budgetThreshold = 0 then 80 else preferences.budgetThreshold
      if 100 ≤ percentage ∧
          hasRecentNotification store now b.id NotificationType.BUDGET_EXCEEDED = false then
        some { budgetId := b.id, spent := spent, budget := b.amount,
               percentage := percentage, atype := AlertKind.EXCEEDED }
      else if threshold ≤ percentage ∧ percentage < 100 ∧
          hasRecentNotification store now b.id NotificationType.BUDGET_WARNING = false then
        some { budgetId := b.id, spent := spent, budget := b.amount,
               percentage := percentage, atype := AlertKind.WARNING }
      else none

/-- BudgetMonitoringService.checkBudgetsAndNotify (lines 15-79): iterate the
active budgets in order, awaiting calculateBudgetSpending for each; the whole
pass runs inside one try/catch whose handler rethrows, so a rejected lookup
aborts the pass and becomes the result of the call. -/
def checkBudgetsAndNotify (store : List Notification) (now : ℚ)
    (calculateBudgetSpending : Nat → Except String ℚ) :
    List Budget → Except String (List BudgetAlert)
  | [] => Except.ok []
  | b :: rest =>
    match calculateBudgetSpending b.id with
    | Except.error e => Except.error e
    | Except.ok spent =>
      match checkBudgetsAndNotify store now calculateBudgetSpending rest with
      | Except.error e => Except.error e
      | Except.ok alerts =>
        Except.ok ((processBudget store now b spent).toList ++ alerts)

/-! ## A small regex engine for the source's extraction patterns

The receipt extractor applies JavaScript regular expressions built from a
small fragment: character classes, greedy bounded repetition of a class,
literals, prioritized alternation, one capture group, and the anchors used
by the merchant pattern.  The AST below covers exactly that fragment and the
matcher reproduces the JS engine's behaviour on it: starting positions are
tried left to right, repetitions are greedy with backtracking, alternatives
are tried in written order. -/

/-- Working representation of the scanned text. -/
abbrev Chars := List Char

/-- The characters of the JavaScript \s class that can occur here. -/
def jsSpace (c : Char) : Bool :=
  c = ' ' || c = '\t' || c = '\n' || c = '\r' || c = '\x0b' || c = '\x0c'

/-- Regex abstract syntax: empty word, one character from a class, greedy
repetition of a class with lower bound and optional upper bound, the single
capture group, sequencing, prioritized alternation, end-of-input anchor. -/
inductive RE where
  | eps : RE
  | cls : (Char → Bool) → RE
  | rep : (Char → Bool) → Nat → Option Nat → RE
  | grp : RE → RE
  | seq : RE → RE → RE
  | alt : RE → RE → RE
  | eos : RE

/-- A case-sensitive literal character. -/
def RE.lit (c : Char) : RE := RE.cls fun d => d = c

/-- A literal character under the /i flag (ASCII case folding; every
case-insensitive literal in the source patterns is ASCII). -/
def RE.ilit (c : Char) : RE := RE.cls fun d => d.toLower = c.toLower

/-- Sequence a list of regexes. -/
def RE.cat (l : List RE) : RE := l.foldr RE.seq RE.eps

/-- A case-sensitive literal string. -/
def RE.str (s : String) : RE := RE.cat (s.toList.map RE.lit)

/-- A literal string under the /i flag. -/
def RE.istr (s : String) : RE := RE.cat (s.toList.map RE.ilit)

/-- Greedy option: try the body first, then the empty word. -/
def RE.opt (r : RE) : RE := RE.alt r RE.eps

/-- Prioritized alternation of a list of regexes, in written order. -/
def RE.alts (l : List RE) : RE := l.foldr RE.alt (RE.cls fun _ => false)

/-- Length of the longest prefix of the text inside the class. -/
def runLen (p : Char → Bool) : Chars → Nat
  | [] => 0
  | c :: rest => if p c then runLen p rest + 1 else 0

/-- Backtracking over a greedy class repetition: try consuming n characters,
then n - 1, ..., down to lo, resuming the continuation each time. -/
def repTry (cap : Option Chars) (s : Chars)
    (k : Option Chars → Chars → Option Chars) (lo : Nat) : Nat → Option Chars
  | 0 => if lo = 0 then k cap s else none
  | n + 1 =>
    if n + 1 < lo then none
    else
      match k cap (s.drop (n + 1)) with
      | some r => some r
      | none => repTry cap s k lo n

/-- The backtracking matcher.  cap carries the text of capture group 1 once
the group has matched; the continuation k receives the capture and the
remaining suffix. -/
def reRun : RE → Chars → Option Chars →
    (Option Chars → Chars → Option Chars) → Option Chars
  | RE.eps, s, cap, k => k cap s
  | RE.eos, s, cap, k => if s.isEmpty then k cap s else none
  | RE.cls p, s, cap, k =>
    match s with
    | [] => none
    | c :: rest => if p c then k cap rest else none
  | RE.rep p lo hi, s, cap, k =>
    let m := runLen p s
    let top := match hi with | none => m | some h => min h m
    repTry cap s k lo top
  | RE.grp r, s, cap, k =>
    reRun r s cap fun _ s2 => k (some (s.take (s.length - s2.length))) s2
  | RE.seq a b, s, cap, k => reRun a s cap fun c s2 => reRun b s2 c k
  | RE.alt a b, s, cap, k =>
    match reRun a s cap k with
    | some r => some r
    | none => reRun b s cap k

/-- Accept a match at the current position, returning capture group 1
(every source pattern has exactly one mandatory group, so the capture is
present whenever the pattern matches). -/
def reAccept (re : RE) (s : Chars) : Option Chars :=
  reRun re s none fun cap _ => some (cap.getD [])

/-- Leftmost match in the text, as String.match without the g flag:
starting positions are tried left to right. -/
def reFind : RE → Chars → Option Chars
  | re, [] => reAccept re []
  | re, c :: rest =>
    match reAccept re (c :: rest) with
    | some r => some r
    | none => reFind re rest

/-- Matching positions after a newline, for a pattern anchored with ^ under
the /m flag. -/
def reFindAfterNL : RE → Chars → Option Chars
  | _, [] => none
  | re, c :: rest =>
    if c = '\n' then
      match reAccept re rest with
      | some r => some r
      | none => reFindAfterNL re rest
    else reFindAfterNL re rest

/-- Leftmost match of a ^-anchored multiline pattern: the start of the text,
then each position following a newline. -/
def reFindBOL (re : RE) (s : Chars) : Option Chars :=
  match reAccept re s with
  | some r => some r
  | none => reFindAfterNL re s

/-! ## The source's extraction patterns (extractDataFromText, lines 363-476) -/

/-- \d -/
def isDigitC (c : Char) : Bool := c.isDigit

/-- The class written [:\s] in the source. -/
def colonSpace (c : Char) : Bool := c = ':' || jsSpace c

/-- The class written [,\d] in the source. -/
def commaDigit (c : Char) : Bool := c = ',' || c.isDigit

/-- ASCII letter (what [A-Za-z] matches, also [a-z] under /i). -/
def alphaC (c : Char) : Bool := ('a' ≤ c && c ≤ 'z') || ('A' ≤ c && c ≤ 'Z')

/-- The class written [A-Za-z\s] in the source. -/
def alphaSpace (c : Char) : Bool := alphaC c || jsSpace c

/-- [A-Z] (case-sensitive: the merchant line pattern has no /i flag). -/
def upperC (c : Char) : Bool := 'A' ≤ c && c ≤ 'Z'

/-- The merchant class [A-Za-z\s&'.,-]. -/
def merchantCls (c : Char) : Bool :=
  alphaC c || jsSpace c || c = '&' || c = Char.ofNat 39 || c = '.' || c = ',' || c = '-'

/-- The date separator class [-./]. -/
def sepC (c : Char) : Bool := c = '-' || c = '/' || c = '.'

/-- The optional currency marker (?:₹|rs\.?|inr) under /i. -/
def currencyRE : RE :=
  RE.alts [RE.lit '₹', RE.seq (RE.istr "rs") (RE.opt (RE.lit '.')),
           RE.istr "inr"]

/-- The captured amount token (\d+(?:[,\d]*)?(?:\.\d{1,2})?); the outer
option around [,\d]* is equivalent to the star alone. -/
def numberRE : RE :=
  RE.cat [RE.rep isDigitC 1 none, RE.rep commaDigit 0 none,
          RE.opt (RE.seq (RE.lit '.') (RE.rep isDigitC 1 (some 2)))]

/-- total[:\s]*(?:₹|rs\.?|inr)?\s*(number) under /i. -/
def amtTotal : RE :=
  RE.cat [RE.istr "total", RE.rep colonSpace 0 none, RE.opt currencyRE,
          RE.rep jsSpace 0 none, RE.grp numberRE]

/-- grand\s*total[:\s]*(?:₹|rs\.?|inr)?\s*(number) under /i. -/
def amtGrandTotal : RE :=
  RE.cat [RE.istr "grand", RE.rep jsSpace 0 none, RE.istr "total",
          RE.rep colonSpace 0 none, RE.opt currencyRE,
          RE.rep jsSpace 0 none, RE.grp numberRE]

/-- amount[:\s]*(?:₹|rs\.?|inr)?\s*(number) under /i. -/
def amtAmount : RE :=
  RE.cat [RE.istr "amount", RE.rep colonSpace 0 none, RE.opt currencyRE,
          RE.rep jsSpace 0 none, RE.grp numberRE]

/-- (?:₹|rs\.?|inr)\s*(number)\s*(?:total|paid)? under /i — the generic
bare-currency fallback, fourth in the source's list. -/
def amtBare : RE :=
  RE.cat [currencyRE, RE.rep jsSpace 0 none, RE.grp numberRE,
          RE.rep jsSpace 0 none, RE.opt (RE.alt (RE.istr "total") (RE.istr "paid"))]

/-- net\s*payable[:\s]*(?:₹|rs\.?|inr)?\s*(number) under /i. -/
def amtNetPayable : RE :=
  RE.cat [RE.istr "net", RE.rep jsSpace 0 none, RE.istr "payable",
          RE.rep colonSpace 0 none, RE.opt currencyRE,
          RE.rep jsSpace 0 none, RE.grp numberRE]

/-- subtotal[:\s]*(?:₹|rs\.?|inr)?\s*(number) under /i. -/
def amtSubtotal : RE :=
  RE.cat [RE.istr "subtotal", RE.rep colonSpace 0 none, RE.opt currencyRE,
          RE.rep jsSpace 0 none, RE.grp numberRE]

/-- The amountPatterns array in source order (ocr-service lines 368-375). -/
def amountPatterns : List RE :=
  [amtTotal, amtGrandTotal, amtAmount, amtBare, amtNetPayable, amtSubtotal]

/-- The D-M-Y token \d{1,2}[-./]\d{1,2}[-./]\d{2,4}. -/
def dmyToken : RE :=
  RE.cat [RE.rep isDigitC 1 (some 2), RE.cls sepC, RE.rep isDigitC 1 (some 2),
          RE.cls sepC, RE.rep isDigitC 2 (some 4)]

/-- date[:\s]*(dmyToken) under /i. -/
def dateKw : RE := RE.cat [RE.istr "date", RE.rep colonSpace 0 none, RE.grp dmyToken]

/-- The bare (dmyToken) pattern. -/
def dateDMY : RE := RE.grp dmyToken

/-- The bare (\d{4}[-./]\d{1,2}[-./]\d{1,2}) pattern. -/
def dateYMD : RE :=
  RE.grp (RE.cat [RE.rep isDigitC 4 (some 4), RE.cls sepC,
                  RE.rep isDigitC 1 (some 2), RE.cls sepC,
                  RE.rep isDigitC 1 (some 2)])

/-- The month-name alternation (?:jan|feb|mar|apr|may|jun|jul|aug|sep|oct|nov|dec). -/
def monthWordRE : RE :=
  RE.alts (["jan", "feb", "mar", "apr", "may", "jun",
            "jul", "aug", "sep", "oct", "nov", "dec"].map RE.istr)

/-- The textual date (\d{1,2}\s+(?:jan|...|dec)[a-z]*\s+\d{2,4}) under /i. -/
def dateText : RE :=
  RE.grp (RE.cat [RE.rep isDigitC 1 (some 2), RE.rep jsSpace 1 none,
                  monthWordRE, RE.rep alphaC 0 none,
                  RE.rep jsSpace 1 none, RE.rep isDigitC 2 (some 4)])

/-- The datePatterns array in source order (lines 390-395). -/
def datePatterns : List RE := [dateKw, dateDMY, dateYMD, dateText]

/-- ^([A-Z][A-Za-z\s&'.,-]+)(?:\n|$) with the /m flag (case-sensitive). -/
def merchantLine : RE :=
  RE.cat [RE.grp (RE.seq (RE.cls upperC) (RE.rep merchantCls 1 none)),
          RE.alt (RE.lit '\n') RE.eos]

/-- from[:\s]*([A-Za-z\s&'.,-]+) under /i. -/
def merchantFrom : RE :=
  RE.cat [RE.istr "from", RE.rep colonSpace 0 none, RE.grp (RE.rep merchantCls 1 none)]

/-- merchant[:\s]*([A-Za-z\s&'.,-]+) under /i. -/
def merchantKw : RE :=
  RE.cat [RE.istr "merchant", RE.rep colonSpace 0 none, RE.grp (RE.rep merchantCls 1 none)]

/-- store[:\s]*([A-Za-z\s&'.,-]+) under /i. -/
def merchantStore : RE :=
  RE.cat [RE.istr "store", RE.rep colonSpace 0 none, RE.grp (RE.rep merchantCls 1 none)]

/-- billed\s*to[:\s]*([A-Za-z\s&'.,-]+) under /i. -/
def merchantBilledTo : RE :=
  RE.cat [RE.istr "billed", RE.rep jsSpace 0 none, RE.istr "to",
          RE.rep colonSpace 0 none, RE.grp (RE.rep merchantCls 1 none)]

/-- The merchantPatterns array in source order (lines 409-415); the Bool marks
the first pattern, which is ^-anchored under /m. -/
def merchantPatterns : List (Bool × RE) :=
  [(true, merchantLine), (false, merchantFrom), (false, merchantKw),
   (false, merchantStore), (false, merchantBilledTo)]

/-- payment[:\s]*(?:method[:\s]*)?([A-Za-z\s]+) under /i. -/
def payMethodKw : RE :=
  RE.cat [RE.istr "payment", RE.rep colonSpace 0 none,
          RE.opt (RE.seq (RE.istr "method") (RE.rep colonSpace 0 none)),
          RE.grp (RE.rep alphaSpace 1 none)]

/-- paid\s*(?:by|via)[:\s]*([A-Za-z\s]+) under /i. -/
def payPaidByVia : RE :=
  RE.cat [RE.istr "paid", RE.rep jsSpace 0 none,
          RE.alt (RE.istr "by") (RE.istr "via"), RE.rep colonSpace 0 none,
          RE.grp (RE.rep alphaSpace 1 none)]

/-- (cash|card|credit|debit|upi|paytm|phonepe|gpay|google\s*pay|wallet|net\s*banking|neft|imps|rtgs) under /i. -/
def payTokens : RE :=
  RE.grp (RE.alts
    [RE.istr "cash", RE.istr "card", RE.istr "credit", RE.istr "debit",
     RE.istr "upi", RE.istr "paytm", RE.istr "phonepe", RE.istr "gpay",
     RE.cat [RE.istr "google", RE.rep jsSpace 0 none, RE.istr "pay"],
     RE.istr "wallet",
     RE.cat [RE.istr "net", RE.rep jsSpace 0 none, RE.istr "banking"],
     RE.istr "neft", RE.istr "imps", RE.istr "rtgs"])

/-- mode[:\s]*([A-Za-z\s]+) under /i. -/
def payMode : RE :=
  RE.cat [RE.istr "mode", RE.rep colonSpace 0 none, RE.grp (RE.rep alphaSpace 1 none)]

/-- The paymentPatterns array in source order (lines 448-453). -/
def paymentPatterns : List RE := [payMethodKw, payPaidByVia, payTokens, payMode]

/-! ## Text cleaning and field parsing helpers -/

/-- text.replace(/\s+/g, ' '): collapse every whitespace run to one space.
The Bool argument records whether the previous character was whitespace. -/
def collapseWsAux : Bool → Chars → Chars
  | _, [] => []
  | prev, c :: rest =>
    if jsSpace c then
      if prev then collapseWsAux true rest
      else ' ' :: collapseWsAux true rest
    else c :: collapseWsAux false rest

/-- String.prototype.trim: drop leading and trailing whitespace. -/
def jsTrim (s : Chars) : Chars :=
  ((s.dropWhile jsSpace).reverse.dropWhile jsSpace).reverse

/-- The cleanText computation text.replace(/\s+/g, ' ').trim() (line 364). -/
def cleanChars (text : String) : Chars :=
  jsTrim (collapseWsAux false text.toList)

/-- Case-insensitive containment uses lowercased copies (line 427). -/
def lowerChars (s : Chars) : Chars := s.map Char.toLower

/-- String.prototype.includes on the character lists. -/
def containsSub (hay needle : Chars) : Bool :=
  match hay with
  | [] => needle.isEmpty
  | _ :: rest => needle.isPrefixOf hay || containsSub rest needle

/-- Numeric value of a digit string. -/
def digitsToNat (s : Chars) : Nat :=
  s.foldl (fun n c => n * 10 + (c.toNat - 48)) 0

/-- match[1].replace(/,/g, '') followed by parseFloat (lines 380-381): the
capture shape is digits, optional commas and digits, then optionally a dot
and one or two digits, so parseFloat always yields the exact decimal. -/
def parseAmount (cap : Chars) : ℚ :=
  let noCommas := cap.filter fun c => c ≠ ','
  let ip := noCommas.takeWhile fun c => c ≠ '.'
  let fp := (noCommas.dropWhile fun c => c ≠ '.').drop 1
  (digitsToNat ip : ℚ) + (digitsToNat fp : ℚ) / (10 ^ fp.length)

/-! ## The JavaScript Date model

parseIndianDate builds new Date(year, monthIndex, day) from parsed integer
components and emits toISOString().split('T')[0].  For the integer inputs
reached here getTime() is never NaN, and the constructor normalizes
out-of-range months and days by rollover.  The time zone of the runtime is
modelled as UTC (a runtime in a zone east of UTC would shift every emitted
date back by one day; the date arithmetic itself is unaffected). -/

/-- The Gregorian leap-year rule used by the Date object. -/
def isLeap (y : Int) : Bool :=
  (y % 4 == 0 && y % 100 != 0) || y % 400 == 0

/-- Days in the 0-based month m of year y. -/
def daysInMonth (y m : Int) : Int :=
  if m = 1 then (if isLeap y then 29 else 28)
  else if m = 3 || m = 5 || m = 8 || m = 10 then 30
  else 31

/-- Normalize a 0-based month index into [0, 11], carrying into the year
(Date rollover for months).  Every year reaching this function is at least
100, so y * 12 + m is nonnegative and truncating division is floor. -/
def normMonth (y m : Int) : Int × Int :=
  let t := y * 12 + m
  (t / 12, t % 12)

/-- Normalize the day of month by rollover (Date sets the timestamp to the
first of the month plus day - 1 days).  The day component parsed here is at
most two digits, so a fuel of 8 months is more than enough. -/
def fixDay : Nat → Int → Int → Int → Int × Int × Int
  | 0, y, m, d => (y, m, d)
  | fuel + 1, y, m, d =>
    if d < 1 then
      let y2 := if m = 0 then y - 1 else y
      let m2 := if m = 0 then 11 else m - 1
      fixDay fuel y2 m2 (d + daysInMonth y2 m2)
    else if daysInMonth y m < d then
      fixDay fuel (if m = 11 then y + 1 else y)
        (if m = 11 then 0 else m + 1) (d - daysInMonth y m)
    else (y, m, d)

/-- Print a nonnegative integer padded to two digits. -/
def pad2 (n : Int) : String :=
  if n.toNat < 10 then "0" ++ toString n.toNat else toString n.toNat

/-- Print a nonnegative integer padded to four digits. -/
def pad4 (n : Int) : String :=
  if n.toNat < 10 then "000" ++ toString n.toNat
  else if n.toNat < 100 then "00" ++ toString n.toNat
  else if n.toNat < 1000 then "0" ++ toString n.toNat
  else toString n.toNat

/-- new Date(year, month, day).toISOString().split('T')[0] with the runtime
time zone modelled as UTC: normalize the 0-based month, roll the day over,
and print the ISO calendar date. -/
def jsDateISO (year month day : Int) : String :=
  let ym := normMonth year month
  let f := fixDay 8 ym.1 ym.2 day
  pad4 f.1 ++ "-" ++ pad2 (f.2.1 + 1) ++ "-" ++ pad2 f.2.2

/-! ## parseIndianDate (ocr-service lines 478-546) -/

/-- All splits of a leading class run of length between lo and hi, longest
first (the backtracking order of a greedy bounded repetition). -/
def takeCls (p : Char → Bool) (lo : Nat) (hi : Option Nat) (s : Chars) :
    List (Chars × Chars) :=
  let run := (s.takeWhile p).length
  let top := match hi with | none => run | some h => min h run
  (List.range (top + 1)).reverse.filterMap fun n =>
    if lo ≤ n then some (s.take n, s.drop n) else none

/-- Full-string match of ^(\d{1,2})[-./](\d{1,2})[-./](\d{2,4})$ returning
(day, month, year). -/
def matchDMYFull (s : Chars) : Option (Nat × Nat × Nat) :=
  (takeCls Char.isDigit 1 (some 2) s).findSome? fun pr =>
    match pr.2 with
    | [] => none
    | c1 :: r2 =>
      if sepC c1 then
        (takeCls Char.isDigit 1 (some 2) r2).findSome? fun pr2 =>
          match pr2.2 with
          | [] => none
          | c2 :: r4 =>
            if sepC c2 then
              (takeCls Char.isDigit 2 (some 4) r4).findSome? fun pr3 =>
                if pr3.2.isEmpty then
                  some (digitsToNat pr.1, digitsToNat pr2.1, digitsToNat pr3.1)
                else none
            else none
      else none

/-- Full-string match of ^(\d{4})[-./](\d{1,2})[-./](\d{1,2})$ returning
(year, month, day). -/
def matchYMDFull (s : Chars) : Option (Nat × Nat × Nat) :=
  (takeCls Char.isDigit 4 (some 4) s).findSome? fun pr =>
    match pr.2 with
    | [] => none
    | c1 :: r2 =>
      if sepC c1 then
        (takeCls Char.isDigit 1 (some 2) r2).findSome? fun pr2 =>
          match pr2.2 with
          | [] => none
          | c2 :: r4 =>
            if sepC c2 then
              (takeCls Char.isDigit 1 (some 2) r4).findSome? fun pr3 =>
                if pr3.2.isEmpty then
                  some (digitsToNat pr.1, digitsToNat pr2.1, digitsToNat pr3.1)
                else none
            else none
      else none

/-- Full-string match of ^(\d{1,2})\s+([A-Za-z]+)\s+(\d{2,4})$ returning
(day, month word, year). -/
def matchTextMonthFull (s : Chars) : Option (Nat × Chars × Nat) :=
  (takeCls Char.isDigit 1 (some 2) s).findSome? fun pr =>
    (takeCls jsSpace 1 none pr.2).findSome? fun pr2 =>
      (takeCls alphaC 1 none pr2.2).findSome? fun pr3 =>
        (takeCls jsSpace 1 none pr3.2).findSome? fun pr4 =>
          (takeCls Char.isDigit 2 (some 4) pr4.2).findSome? fun pr5 =>
            if pr5.2.isEmpty then
              some (digitsToNat pr.1, pr3.1, digitsToNat pr5.1)
            else none

/-- The monthMap object of parseIndianDate (keys are the lowercased first
three letters of the captured month word). -/
def monthMap : List (String × Nat) :=
  [("jan", 0), ("feb", 1), ("mar", 2), ("apr", 3), ("may", 4), ("jun", 5),
   ("jul", 6), ("aug", 7), ("sep", 8), ("oct", 9), ("nov", 10), ("dec", 11)]

/-- AWSTextractService.parseIndianDate (lines 478-546): trim, then try the
D-M-Y shape, the Y-M-D shape, and the textual-month shape in that order;
two-digit years are expanded with year < 50 ? 2000 + year : 1900 + year;
the isNaN(getTime()) guard of the source never fires for integer components,
so a successful shape match always yields a date string. -/
def parseIndianDate (dateStr : Chars) : Option String :=
  let s := jsTrim dateStr
  match matchDMYFull s with
  | some dmy =>
    let day := dmy.1
    let month := dmy.2.1
    let year0 := dmy.2.2
    let year := if year0 < 100 then
        (if year0 < 50 then 2000 + year0 else 1900 + year0) else year0
    some (jsDateISO (year : Int) ((month : Int) - 1) (day : Int))
  | none =>
    match matchYMDFull s with
    | some ymd =>
      some (jsDateISO (ymd.1 : Int) ((ymd.2.1 : Int) - 1) (ymd.2.2 : Int))
    | none =>
      match matchTextMonthFull s with
      | some tm =>
        match monthMap.lookup (String.mk ((lowerChars tm.2.1).take 3)) with
        | some m =>
          let year0 := tm.2.2
          let year := if year0 < 100 then
              (if year0 < 50 then 2000 + year0 else 1900 + year0) else year0
          some (jsDateISO (year : Int) (m : Int) (tm.1 : Int))
        | none => none
      | none => none

/-! ## The extraction pipeline (extractDataFromText, lines 363-476) -/

/-- The amount loop (lines 377-387): first pattern whose match parses to a
positive number wins; a match parsing to a non-positive number falls through
to the next pattern, as in the source. -/
def extractAmount : Chars → List RE → Option ℚ
  | _, [] => none
  | s, p :: ps =>
    match reFind p s with
    | some cap =>
      let amount := parseAmount cap
      if 0 < amount then some amount else extractAmount s ps
    | none => extractAmount s ps

/-- The date loop (lines 397-406): first pattern whose capture parses to a
date wins; an unparsable capture falls through to the next pattern. -/
def extractDate : Chars → List RE → Option String
  | _, [] => none
  | s, p :: ps =>
    match reFind p s with
    | some cap =>
      match parseIndianDate cap with
      | some d => some d
      | none => extractDate s ps
    | none => extractDate s ps

/-- The commonMerchants array (lines 418-424), in source order. -/
def commonMerchants : List String :=
  ["Swiggy", "Zomato", "BigBasket", "Amazon", "Flipkart", "Myntra",
   "Reliance", "DMart", "Spencer", "More", "Big Bazaar", "Shoppers Stop",
   "Dominos", "Pizza Hut", "McDonald", "KFC", "Burger King", "Subway",
   "Uber", "Ola", "Rapido", "Metro", "Petrol", "Shell", "HP", "Indian Oil",
   "Paytm", "PhonePe", "Google Pay", "HDFC", "ICICI", "SBI", "Axis"]

/-- The merchant fallback loop (lines 434-445): the trimmed capture is kept
when its length is strictly between 2 and 50. -/
def merchantFromPatterns : Chars → List (Bool × RE) → Option String
  | _, [] => none
  | s, (anchored, p) :: ps =>
    match (if anchored then reFindBOL p s else reFind p s) with
    | some cap =>
      let merchant := jsTrim cap
      if 2 < merchant.length ∧ merchant.length < 50 then some (String.mk merchant)
      else merchantFromPatterns s ps
    | none => merchantFromPatterns s ps

/-- Merchant extraction (lines 417-445): the curated list is checked first
by case-insensitive containment; only when no curated name occurs does the
pattern fallback run. -/
def extractMerchant (s : Chars) : Option String :=
  match commonMerchants.find? (fun m => containsSub (lowerChars s) (lowerChars m.toList)) with
  | some m => some m
  | none => merchantFromPatterns s merchantPatterns

/-- AWSTextractService.mapPaymentMethod (lines 548-573). -/
def mapPaymentMethod (method : String) : Option String :=
  ([("cash", "CASH"), ("card", "CREDIT_CARD"), ("credit", "CREDIT_CARD"),
    ("credit card", "CREDIT_CARD"), ("debit", "DEBIT_CARD"),
    ("debit card", "DEBIT_CARD"), ("upi", "UPI"), ("paytm", "WALLET"),
    ("phonepe", "WALLET"), ("phone pe", "WALLET"), ("gpay", "UPI"),
    ("google pay", "UPI"), ("googlepay", "UPI"), ("wallet", "WALLET"),
    ("net banking", "NET_BANKING"), ("netbanking", "NET_BANKING"),
    ("internet banking", "NET_BANKING"), ("neft", "NET_BANKING"),
    ("imps", "NET_BANKING"), ("rtgs", "NET_BANKING")] :
      List (String × String)).lookup method

/-- The payment loop (lines 455-465): the lowercased trimmed capture is put
through mapPaymentMethod; an unmapped token falls through to the next
pattern. -/
def extractPayment : Chars → List RE → Option String
  | _, [] => none
  | s, p :: ps =>
    match reFind p s with
    | some cap =>
      match mapPaymentMethod (String.mk (jsTrim (lowerChars cap))) with
      | some mm => some mm
      | none => extractPayment s ps
    | none => extractPayment s ps

/-- The extractedData record of extractDataFromText. -/
structure ExtractedData where
  amount : Option ℚ
  date : Option String
  merchant : Option String
  paymentMethod : Option String
  description : Option String
deriving DecidableEq, Repr

/-- JavaScript template interpolation of the parsed amount (line 471); the
amount was parsed from at most two decimal digits, so its decimal expansion
is exact and trailing zero decimals are dropped as the Number-to-string
conversion does. -/
def ratToJs (q : ℚ) : String :=
  let cents := (q * 100).num.toNat
  let ip := cents / 100
  let r := cents % 100
  if r = 0 then toString ip
  else if r % 10 = 0 then toString ip ++ "." ++ toString (r / 10)
  else toString ip ++ "." ++ (if r < 10 then "0" ++ toString r else toString r)

/-- AWSTextractService.extractDataFromText (lines 363-476): clean the text,
extract the four fields independently, and synthesize the description from
merchant and amount. -/
def extractDataFromText (text : String) : ExtractedData :=
  let cleanText := cleanChars text
  let amount := extractAmount cleanText amountPatterns
  let date := extractDate cleanText datePatterns
  let merchant := extractMerchant cleanText
  let paymentMethod := extractPayment cleanText paymentPatterns
  let description :=
    match merchant with
    | none => none
    | some m =>
      some ("Purchase at " ++ m ++
        (match amount with | none => "" | some a => " for ₹" ++ ratToJs a))
  { amount := amount, date := date, merchant := merchant,
    paymentMethod := paymentMethod, description := description }

/-! ## Theorems: the budget-monitoring claims -/

/-- Unfolding lemma: the percentage field of an evaluation. -/
theorem evaluate_percentage (amount spent threshold : ℚ) :
    (evaluate amount spent threshold).percentage = spent / amount * 100 := rfl

/-- Unfolding lemma: the tier field of an evaluation. -/
theorem evaluate_tier_def (amount spent threshold : ℚ) :
    (evaluate amount spent threshold).tier =
      if 100 ≤ spent / amount * 100 then Tier.EXCEEDED
      else if threshold ≤ spent / amount * 100 ∧ spent / amount * 100 < 100 then Tier.WARNING
      else Tier.NONE := rfl

/-- C1: for every budget with amount > 0, non-negative spent, and threshold in
[1, 100], the evaluation computes percentage = spent / amount * 100 exactly and
classifies EXCEEDED iff percentage >= 100, WARNING iff threshold <= percentage
< 100, and NONE otherwise (equivalently percentage < threshold); in particular
spent = amount yields EXCEEDED. -/
theorem C1_evaluate_tier (amount spent threshold : ℚ)
    (hamt : 0 < amount) (hsp : 0 ≤ spent)
    (ht1 : 1 ≤ threshold) (ht2 : threshold ≤ 100) :
    (evaluate amount spent threshold).percentage = spent / amount * 100 ∧
    ((evaluate amount spent threshold).tier = Tier.EXCEEDED ↔
      100 ≤ spent / amount * 100) ∧
    ((evaluate amount spent threshold).tier = Tier.WARNING ↔
      threshold ≤ spent / amount * 100 ∧ spent / amount * 100 < 100) ∧
    ((evaluate amount spent threshold).tier = Tier.NONE ↔
      spent / amount * 100 < threshold) ∧
    (spent = amount → (evaluate amount spent threshold).tier = Tier.EXCEEDED) := by
  have htier := evaluate_tier_def amount spent threshold
  refine ⟨rfl, ?_, ?_, ?_, ?_⟩
  · rw [htier]; split_ifs with h1 h2
    · exact iff_of_true rfl h1
    · exact iff_of_false (by decide) h1
    · exact iff_of_false (by decide) h1
  · rw [htier]; split_ifs with h1 h2
    · exact iff_of_false (by decide) (by rintro ⟨-, hlt⟩; linarith)
    · exact iff_of_true rfl h2
    · exact iff_of_false (by decide) h2
  · rw [htier]; split_ifs with h1 h2
    · exact iff_of_false (by decide) (by intro hlt; linarith)
    · exact iff_of_false (by decide) (by intro hlt; linarith [h2.1])
    · refine iff_of_true rfl ?_
      by_contra hge
      push_neg at hge h2
      exact absurd (h2 hge) (by push_neg at h1 ⊢; linarith)
  · intro heq
    subst heq
    have h100 : spent / spent * 100 = 100 := by
      rw [div_self (by linarith : spent ≠ 0)]; norm_num
    rw [htier, h100]
    norm_num

/-- Witness for C1 at amount 200, spent 100, threshold 80. -/
theorem C1_evaluate_tier_witness :
    (evaluate 200 100 80).percentage = 100 / 200 * 100 ∧
    ((evaluate 200 100 80).tier = Tier.EXCEEDED ↔
      (100 : ℚ) ≤ 100 / 200 * 100) ∧
    ((evaluate 200 100 80).tier = Tier.WARNING ↔
      (80 : ℚ) ≤ 100 / 200 * 100 ∧ (100 : ℚ) / 200 * 100 < 100) ∧
    ((evaluate 200 100 80).tier = Tier.NONE ↔
      (100 : ℚ) / 200 * 100 < 80) ∧
    ((100 : ℚ) = 200 → (evaluate 200 100 80).tier = Tier.EXCEEDED) :=
  C1_evaluate_tier 200 100 80 (by norm_num) (by norm_num) (by norm_num) (by norm_num)

/-- C2 counterexample: three budgets, the spending lookup for the second
rejects. The pass returns only the error: budget 1's alert, which
processBudget would produce, and budget 3's result are not reported, and no
collected error list accompanies any successes. -/
theorem C2_counterexample :
    checkBudgetsAndNotify [] 0
      (fun id => if id = 2 then Except.error "lookup failed" else Except.ok 150)
      [{ id := 1, amount := 100, preference := some defaultPreferences },
       { id := 2, amount := 100, preference := some defaultPreferences },
       { id := 3, amount := 100, preference := some defaultPreferences }] =
      Except.error "lookup failed" ∧
    processBudget [] 0 { id := 1, amount := 100, preference := some defaultPreferences } 150 =
      some { budgetId := 1, spent := 150, budget := 100, percentage := 150,
             atype := AlertKind.EXCEEDED } := by
  constructor
  · rfl
  · norm_num [processBudget, defaultPreferences, hasRecentNotification]

/-- C2 amended: the monitoring pass is fail-fast, not error-isolating — the
whole pass runs in one try/catch whose handler rethrows, so the first
rejected spending lookup aborts the pass and the caller receives only that
error, with no results for the remaining budgets and no collected error
list. -/
theorem C2_failfast (store : List Notification) (now : ℚ)
    (lookup : Nat → Except String ℚ) (l1 l2 : List Budget) (b : Budget) (e : String)
    (h1 : ∀ b2 ∈ l1, ∃ q, lookup b2.id = Except.ok q)
    (h2 : lookup b.id = Except.error e) :
    checkBudgetsAndNotify store now lookup (l1 ++ b :: l2) = Except.error e := by
  induction l1 with
  | nil => simp [checkBudgetsAndNotify, h2]
  | cons a t ih =>
    obtain ⟨q, hq⟩ := h1 a (by simp)
    have ht : ∀ b2 ∈ t, ∃ q, lookup b2.id = Except.ok q := fun b2 hb2 =>
      h1 b2 (by simp [hb2])
    simp [checkBudgetsAndNotify, hq, ih ht]

/-- Witness for C2's amended theorem: one succeeding budget before the
failing one. -/
theorem C2_failfast_witness :
    checkBudgetsAndNotify [] 0
      (fun id => if id = 2 then Except.error "boom" else Except.ok 0)
      ([{ id := 1, amount := 100, preference := none }] ++
        { id := 2, amount := 100, preference := none } :: []) =
      Except.error "boom" :=
  C2_failfast [] 0 _ _ _ _ "boom"
    (by
      intro b2 hb2
      simp only [List.mem_singleton] at hb2
      subst hb2
      exact ⟨0, rfl⟩)
    rfl

/-- C3: the deduplicator suppresses (shouldEmit = false) iff the store holds
a notification of the same kind for the same relatedId created within the
24-hour lookback window; in particular a WARNING for budget B created 1 hour
ago suppresses a new WARNING for B but not a new EXCEEDED for B, and a
WARNING created 25 hours ago suppresses nothing. -/
theorem C3_dedup (store : List Notification) (now : ℚ) (budgetId : Nat)
    (t : NotificationType) :
    (shouldEmit store now t budgetId = false ↔
      ∃ n ∈ store, n.relatedId = budgetId ∧
        n.ntype = (if t = NotificationType.BUDGET_EXCEEDED then
          NotificationType.BUDGET_EXCEEDED else NotificationType.BUDGET_WARNING) ∧
        now - 24 ≤ n.createdAt) ∧
    shouldEmit [{ relatedId := budgetId, ntype := NotificationType.BUDGET_WARNING,
                  createdAt := now - 1 }] now NotificationType.BUDGET_WARNING budgetId = false ∧
    shouldEmit [{ relatedId := budgetId, ntype := NotificationType.BUDGET_WARNING,
                  createdAt := now - 1 }] now NotificationType.BUDGET_EXCEEDED budgetId = true ∧
    shouldEmit [{ relatedId := budgetId, ntype := NotificationType.BUDGET_WARNING,
                  createdAt := now - 25 }] now NotificationType.BUDGET_WARNING budgetId = true ∧
    shouldEmit [{ relatedId := budgetId, ntype := NotificationType.BUDGET_WARNING,
                  createdAt := now - 25 }] now NotificationType.BUDGET_EXCEEDED budgetId = true := by
  refine ⟨?_, ?_, ?_, ?_, ?_⟩
  · simp [shouldEmit, hasRecentNotification, List.any_eq_true, and_assoc]
  · simp [shouldEmit, hasRecentNotification]
    linarith
  · simp [shouldEmit, hasRecentNotification]
  · simp [shouldEmit, hasRecentNotification]
    linarith
  · simp [shouldEmit, hasRecentNotification]

/-- C4 counterexample: a budget with amount = -100 <= 0 does not fail
evaluation with an InvalidBudget error — the source has no such check; the
division is performed and a normal result is returned (percentage -50, tier
NONE). -/
theorem C4_counterexample :
    evaluate (-100) 50 80 = { percentage := -50, tier := Tier.NONE } := by
  have h1 : ¬ (100 : ℚ) ≤ 50 / (-100) * 100 := by norm_num
  have h2 : ¬ ((80 : ℚ) ≤ 50 / (-100) * 100 ∧ (50 : ℚ) / (-100) * 100 < 100) := by
    rintro ⟨hle, -⟩; norm_num at hle
  have heta : evaluate (-100) 50 80 =
      { percentage := (evaluate (-100) 50 80).percentage,
        tier := (evaluate (-100) 50 80).tier } := rfl
  rw [heta, evaluate_percentage, evaluate_tier_def, if_neg h1, if_neg h2]
  norm_num

/-- C4 amended: evaluation never fails — there is no InvalidBudget error
path and the division is performed unconditionally.  For amount < 0 and
spent >= 0 (any threshold >= 1) the computed percentage is <= 0, the tier is
NONE, and the pass simply continues; the amount > 0 precondition is enforced
nowhere in the monitoring code. -/
theorem C4_no_invalid_budget_error (amount spent threshold : ℚ)
    (hneg : amount < 0) (hsp : 0 ≤ spent) (ht : 1 ≤ threshold) :
    evaluate amount spent threshold =
      { percentage := spent / amount * 100, tier := Tier.NONE } ∧
    spent / amount * 100 ≤ 0 := by
  have hdiv : spent / amount ≤ 0 :=
    div_nonpos_of_nonneg_of_nonpos hsp (le_of_lt hneg)
  have hp : spent / amount * 100 ≤ 0 := by linarith
  refine ⟨?_, hp⟩
  have h1 : ¬ (100 : ℚ) ≤ spent / amount * 100 := by linarith
  have h2 : ¬ (threshold ≤ spent / amount * 100 ∧ spent / amount * 100 < 100) := by
    rintro ⟨hle, -⟩; linarith
  have heta : evaluate amount spent threshold =
      { percentage := (evaluate amount spent threshold).percentage,
        tier := (evaluate amount spent threshold).tier } := rfl
  rw [heta, evaluate_percentage, evaluate_tier_def, if_neg h1, if_neg h2]

/-- Witness for C4's amended theorem at amount -100, spent 50, threshold 80. -/
theorem C4_no_invalid_budget_error_witness :
    evaluate (-100) 50 80 =
      { percentage := (50 : ℚ) / (-100) * 100, tier := Tier.NONE } ∧
    (50 : ℚ) / (-100) * 100 ≤ 0 :=
  C4_no_invalid_budget_error (-100) 50 80 (by norm_num) (by norm_num) (by norm_num)

/-- C5 counterexample: a budget at 150 percent whose user has no
notification-preference record is skipped entirely by the monitoring pass
(the loop hits continue), while the same budget with the default record
{budgetAlerts := true, budgetThreshold := 80} produces the EXCEEDED alert —
so absence of the record is not equivalent to the defaults. -/
theorem C5_counterexample :
    processBudget [] 0 { id := 1, amount := 100, preference := none } 150 = none ∧
    processBudget [] 0
        { id := 1, amount := 100, preference := some defaultPreferences } 150 =
      some { budgetId := 1, spent := 150, budget := 100, percentage := 150,
             atype := AlertKind.EXCEEDED } := by
  constructor
  · rfl
  · norm_num [processBudget, defaultPreferences, hasRecentNotification]

/-- C5 amended: when the user's preference record is absent the monitoring
pass emits nothing for that user's budgets (the loop's continue treats a
missing record like disabled alerts); the in-pass default of 80 applies only
when a record exists whose budgetThreshold is falsy (0); the {true, 80}
default record itself is only materialized by the preferences GET endpoint. -/
theorem C5_absent_preferences_skip (store : List Notification) (now : ℚ)
    (id : Nat) (amount spent : ℚ) :
    processBudget store now { id := id, amount := amount, preference := none } spent =
      none ∧
    (∀ alertsOn : Bool,
      processBudget store now
          { id := id, amount := amount,
            preference := some { budgetAlerts := alertsOn, budgetThreshold := 0 } } spent =
        processBudget store now
          { id := id, amount := amount,
            preference := some { budgetAlerts := alertsOn, budgetThreshold := 80 } } spent) ∧
    defaultPreferences = { budgetAlerts := true, budgetThreshold := 80 } := by
  refine ⟨rfl, ?_, rfl⟩
  intro alertsOn
  norm_num [processBudget]

/-- C10: whenever the computed percentage is at least 100 the pass never
emits a BUDGET_WARNING for that budget — the warning branch requires
percentage < 100 — and when the EXCEEDED alert is suppressed by the dedup
check, nothing at all is emitted for that budget. -/
theorem C10_no_warning_downgrade (store : List Notification) (now : ℚ)
    (b : Budget) (spent : ℚ) (h : 100 ≤ spent / b.amount * 100) :
    (∀ a : BudgetAlert, processBudget store now b spent = some a →
      a.atype = AlertKind.EXCEEDED) ∧
    (hasRecentNotification store now b.id NotificationType.BUDGET_EXCEEDED = true →
      processBudget store now b spent = none) := by
  cases hb : b.preference with
  | none =>
    refine ⟨fun a ha => absurd ha ?_, fun _ => ?_⟩ <;>
      simp [processBudget, hb]
  | some p =>
    simp only [processBudget, hb]
    by_cases hba : p.budgetAlerts = false
    · simp [hba]
    · rw [if_neg hba]
      by_cases hE : 100 ≤ spent / b.amount * 100 ∧
          hasRecentNotification store now b.id NotificationType.BUDGET_EXCEEDED = false
      · rw [if_pos hE]
        constructor
        · intro a ha
          have hrec := Option.some.inj ha
          subst hrec
          rfl
        · intro hrec
          exact absurd hE.2 (by simp [hrec])
      · rw [if_neg hE]
        have hW : ¬ ((if p.budgetThreshold = 0 then (80 : ℚ) else p.budgetThreshold) ≤
            spent / b.amount * 100 ∧ spent / b.amount * 100 < 100 ∧
            hasRecentNotification store now b.id NotificationType.BUDGET_WARNING = false) := by
          rintro ⟨-, hlt, -⟩; linarith
        rw [if_neg hW]
        exact ⟨fun a ha => absurd ha (by simp), fun _ => rfl⟩

/-- Witness for C10: an over-budget budget whose EXCEEDED alert is
suppressed by a one-hour-old EXCEEDED notification emits nothing. -/
theorem C10_no_warning_downgrade_witness :
    (∀ a : BudgetAlert,
      processBudget
        [{ relatedId := 1, ntype := NotificationType.BUDGET_EXCEEDED, createdAt := -1 }] 0
        { id := 1, amount := 100,
          preference := some { budgetAlerts := true, budgetThreshold := 80 } } 150 =
        some a → a.atype = AlertKind.EXCEEDED) ∧
    (hasRecentNotification
        [{ relatedId := 1, ntype := NotificationType.BUDGET_EXCEEDED, createdAt := -1 }] 0
        1 NotificationType.BUDGET_EXCEEDED = true →
      processBudget
        [{ relatedId := 1, ntype := NotificationType.BUDGET_EXCEEDED, createdAt := -1 }] 0
        { id := 1, amount := 100,
          preference := some { budgetAlerts := true, budgetThreshold := 80 } } 150 =
        none) :=
  C10_no_warning_downgrade
    [{ relatedId := 1, ntype := NotificationType.BUDGET_EXCEEDED, createdAt := -1 }] 0
    { id := 1, amount := 100,
      preference := some { budgetAlerts := true, budgetThreshold := 80 } } 150
    (by norm_num)

/-! ## Theorems: the receipt-extraction claims -/

/-- C6 counterexample: an input that contains "Total: ₹880.00", "Payment
Method: UPI" and "BigBasket", has no date-shaped substring, yet extracts
amount 850, not 880 — the /total.../i pattern is unanchored and its leftmost
match lies inside the earlier "Subtotal: ₹850.00". -/
theorem C6_counterexample :
    containsSub ("BigBasket Subtotal: ₹850.00 Total: ₹880.00 Payment Method: UPI".toList)
      ("Total: ₹880.00".toList) = true ∧
    containsSub ("BigBasket Subtotal: ₹850.00 Total: ₹880.00 Payment Method: UPI".toList)
      ("Payment Method: UPI".toList) = true ∧
    containsSub ("BigBasket Subtotal: ₹850.00 Total: ₹880.00 Payment Method: UPI".toList)
      ("BigBasket".toList) = true ∧
    (datePatterns.all fun p =>
      (reFind p (cleanChars "BigBasket Subtotal: ₹850.00 Total: ₹880.00 Payment Method: UPI")).isNone) = true ∧
    (extractDataFromText "BigBasket Subtotal: ₹850.00 Total: ₹880.00 Payment Method: UPI").amount =
      some 850 ∧
    ¬ (extractDataFromText "BigBasket Subtotal: ₹850.00 Total: ₹880.00 Payment Method: UPI").amount =
      some 880 := by
  have hfind : reFind amtTotal
      (cleanChars "BigBasket Subtotal: ₹850.00 Total: ₹880.00 Payment Method: UPI") =
      some ("850.00".toList) := by decide
  have hparse : parseAmount ("850.00".toList) = 850 := by
    have h : parseAmount ("850.00".toList) = ((850 : ℕ) : ℚ) + ((0 : ℕ) : ℚ) / 10 ^ 2 := rfl
    rw [h]; norm_num
  have hamount : (extractDataFromText
      "BigBasket Subtotal: ₹850.00 Total: ₹880.00 Payment Method: UPI").amount = some 850 := by
    have hstep : (extractDataFromText
        "BigBasket Subtotal: ₹850.00 Total: ₹880.00 Payment Method: UPI").amount =
        match reFind amtTotal
            (cleanChars "BigBasket Subtotal: ₹850.00 Total: ₹880.00 Payment Method: UPI") with
        | some cap =>
          if 0 < parseAmount cap then some (parseAmount cap)
          else extractAmount
            (cleanChars "BigBasket Subtotal: ₹850.00 Total: ₹880.00 Payment Method: UPI")
            [amtGrandTotal, amtAmount, amtBare, amtNetPayable, amtSubtotal]
        | none => extractAmount
            (cleanChars "BigBasket Subtotal: ₹850.00 Total: ₹880.00 Payment Method: UPI")
            [amtGrandTotal, amtAmount, amtBare, amtNetPayable, amtSubtotal] := rfl
    rw [hstep, hfind]
    simp only [hparse]
    norm_num
  refine ⟨by decide, by decide, by decide, by decide, hamount, ?_⟩
  rw [hamount]
  intro hcon
  have := Option.some.inj hcon
  norm_num at this

/-- C6 amended: the round trip holds for an input containing the required
substrings when no earlier text (such as a "Subtotal" line) matches an amount
pattern first: "BigBasket Total: ₹880.00 Payment Method: UPI" extracts amount
880, merchant BigBasket, paymentMethod UPI, description "Purchase at
BigBasket for ₹880", and no date. -/
theorem C6_round_trip :
    extractDataFromText "BigBasket Total: ₹880.00 Payment Method: UPI" =
      { amount := some 880, date := none, merchant := some "BigBasket",
        paymentMethod := some "UPI",
        description := some "Purchase at BigBasket for ₹880" } := by
  have hfind : reFind amtTotal (cleanChars "BigBasket Total: ₹880.00 Payment Method: UPI") =
      some ("880.00".toList) := by decide
  have hparse : parseAmount ("880.00".toList) = 880 := by
    have h : parseAmount ("880.00".toList) = ((880 : ℕ) : ℚ) + ((0 : ℕ) : ℚ) / 10 ^ 2 := rfl
    rw [h]; norm_num
  have hamount : extractAmount (cleanChars "BigBasket Total: ₹880.00 Payment Method: UPI")
      amountPatterns = some 880 := by
    have hstep : extractAmount (cleanChars "BigBasket Total: ₹880.00 Payment Method: UPI")
        amountPatterns =
        match reFind amtTotal (cleanChars "BigBasket Total: ₹880.00 Payment Method: UPI") with
        | some cap =>
          if 0 < parseAmount cap then some (parseAmount cap)
          else extractAmount (cleanChars "BigBasket Total: ₹880.00 Payment Method: UPI")
            [amtGrandTotal, amtAmount, amtBare, amtNetPayable, amtSubtotal]
        | none => extractAmount (cleanChars "BigBasket Total: ₹880.00 Payment Method: UPI")
            [amtGrandTotal, amtAmount, amtBare, amtNetPayable, amtSubtotal] := rfl
    rw [hstep, hfind]
    simp only [hparse]
    norm_num
  have hdate : extractDate (cleanChars "BigBasket Total: ₹880.00 Payment Method: UPI")
      datePatterns = none := by decide
  have hmerchant : extractMerchant (cleanChars "BigBasket Total: ₹880.00 Payment Method: UPI") =
      some "BigBasket" := by decide
  have hpay : extractPayment (cleanChars "BigBasket Total: ₹880.00 Payment Method: UPI")
      paymentPatterns = some "UPI" := by decide
  have hnum : ((880 : ℚ) * 100).num = 88000 := by norm_num
  have hjs : ratToJs 880 = "880" := by
    simp only [ratToJs, hnum]
    decide
  have hsplit : extractDataFromText "BigBasket Total: ₹880.00 Payment Method: UPI" =
      { amount := extractAmount (cleanChars "BigBasket Total: ₹880.00 Payment Method: UPI")
          amountPatterns,
        date := extractDate (cleanChars "BigBasket Total: ₹880.00 Payment Method: UPI")
          datePatterns,
        merchant := extractMerchant (cleanChars "BigBasket Total: ₹880.00 Payment Method: UPI"),
        paymentMethod := extractPayment
          (cleanChars "BigBasket Total: ₹880.00 Payment Method: UPI") paymentPatterns,
        description :=
          match extractMerchant (cleanChars "BigBasket Total: ₹880.00 Payment Method: UPI") with
          | none => none
          | some m =>
            some ("Purchase at " ++ m ++
              (match extractAmount (cleanChars "BigBasket Total: ₹880.00 Payment Method: UPI")
                  amountPatterns with
               | none => ""
               | some a => " for ₹" ++ ratToJs a)) } := rfl
  rw [hsplit, hamount, hdate, hmerchant, hpay]
  simp only [hjs]
  rfl

/-- C7 counterexample: on "Paid ₹50 Net Payable: 500" both the keyword-anchored
net-payable pattern (capturing 500) and the generic bare-currency pattern
(capturing 50) match, yet the extracted amount is 50, because the generic
pattern sits before net payable (and subtotal) in the source's list. -/
theorem C7_counterexample :
    reFind amtNetPayable (cleanChars "Paid ₹50 Net Payable: 500") = some ("500".toList) ∧
    reFind amtBare (cleanChars "Paid ₹50 Net Payable: 500") = some ("50".toList) ∧
    extractAmount (cleanChars "Paid ₹50 Net Payable: 500") amountPatterns = some 50 ∧
    ¬ extractAmount (cleanChars "Paid ₹50 Net Payable: 500") amountPatterns = some 500 := by
  have h1 : reFind amtTotal (cleanChars "Paid ₹50 Net Payable: 500") = none := by decide
  have h2 : reFind amtGrandTotal (cleanChars "Paid ₹50 Net Payable: 500") = none := by decide
  have h3 : reFind amtAmount (cleanChars "Paid ₹50 Net Payable: 500") = none := by decide
  have h4 : reFind amtBare (cleanChars "Paid ₹50 Net Payable: 500") = some ("50".toList) := by
    decide
  have hparse : parseAmount ("50".toList) = 50 := by
    have h : parseAmount ("50".toList) = ((50 : ℕ) : ℚ) + ((0 : ℕ) : ℚ) / 10 ^ 0 := rfl
    rw [h]; norm_num
  have hamount : extractAmount (cleanChars "Paid ₹50 Net Payable: 500") amountPatterns =
      some 50 := by
    show extractAmount (cleanChars "Paid ₹50 Net Payable: 500")
      [amtTotal, amtGrandTotal, amtAmount, amtBare, amtNetPayable, amtSubtotal] = some 50
    simp only [extractAmount, h1, h2, h3, h4, hparse]
    norm_num
  refine ⟨by decide, h4, hamount, ?_⟩
  rw [hamount]
  intro hcon
  have := Option.some.inj hcon
  norm_num at this

/-- C7 amended: the amount list is tried first-match-wins, and the total,
grand total and amount keyword patterns do precede the generic bare-currency
pattern — in particular whenever the first (total) pattern matches with a
positive parsed value, that value is the extracted amount — but the net
payable and subtotal keyword patterns come after the generic pattern, so the
generic match wins over them (see the counterexample). -/
theorem C7_total_beats_generic (s cap : Chars)
    (h : reFind amtTotal s = some cap) (hpos : 0 < parseAmount cap) :
    extractAmount s amountPatterns = some (parseAmount cap) := by
  have hstep : extractAmount s amountPatterns =
      match reFind amtTotal s with
      | some cap2 =>
        if 0 < parseAmount cap2 then some (parseAmount cap2)
        else extractAmount s [amtGrandTotal, amtAmount, amtBare, amtNetPayable, amtSubtotal]
      | none => extractAmount s [amtGrandTotal, amtAmount, amtBare, amtNetPayable, amtSubtotal] :=
    rfl
  rw [hstep, h]
  simp [hpos]

/-- Witness for C7's amended theorem: on "Total: 5" the total pattern
captures 5 and 5 is the extracted amount. -/
theorem C7_total_beats_generic_witness :
    extractAmount (cleanChars "Total: 5") amountPatterns = some (parseAmount ("5".toList)) :=
  C7_total_beats_generic (cleanChars "Total: 5") ("5".toList) (by decide)
    (by
      have h : parseAmount ("5".toList) = ((5 : ℕ) : ℚ) + ((0 : ℕ) : ℚ) / 10 ^ 0 := rfl
      rw [h]; norm_num)

/-- C8: every matched D-M-Y token whose year component is two-digit has its
year expanded with year < 50 ? 2000 + year : 1900 + year before the ISO
normalization (first conjunct, universal over all matched tokens); for the
token family 15/01/YY the resulting ISO string is exactly the expanded year
followed by -01-15, checked exhaustively over all one hundred two-digit
years (second conjunct); and an input containing "15/01/24" extracts the
date "2024-01-15" (third conjunct). -/
theorem C8_two_digit_year_expansion :
    (∀ s : Chars, ∀ d m y : Nat,
      matchDMYFull (jsTrim s) = some (d, m, y) → y < 100 →
      parseIndianDate s =
        some (jsDateISO ((if y < 50 then 2000 + y else 1900 + y : ℕ) : Int)
          ((m : Int) - 1) (d : Int))) ∧
    (∀ y : Fin 100,
      parseIndianDate
          (("15/01/" ++ (if y.val < 10 then "0" else "") ++ toString y.val).toList) =
        some (toString (if y.val < 50 then 2000 + y.val else 1900 + y.val) ++ "-01-15")) ∧
    (extractDataFromText "Receipt 15/01/24").date = some "2024-01-15" := by
  refine ⟨?_, by decide, ?_⟩
  · intro s d m y hm hy
    simp only [parseIndianDate, hm]
    rw [if_pos hy]
  · show extractDate (cleanChars "Receipt 15/01/24") datePatterns = some "2024-01-15"
    decide

/-- Witness for C8 at the token "15/01/24", discharging the match and
two-digit-year hypotheses of the universal conjunct. -/
theorem C8_two_digit_year_expansion_witness :
    parseIndianDate ("15/01/24".toList) =
      some (jsDateISO ((if 24 < 50 then 2000 + 24 else 1900 + 24 : ℕ) : Int)
        (((1 : ℕ) : Int) - 1) ((15 : ℕ) : Int)) :=
  C8_two_digit_year_expansion.1 ("15/01/24".toList) 15 1 24 (by decide) (by decide)

/-- C9 counterexample: "15/13/24" carries month 13, an invalid calendar
month, yet the date field is not omitted: the Date constructor rolls the
month over and the extractor returns 2025-01-15. -/
theorem C9_counterexample :
    (extractDataFromText "15/13/24").date = some "2025-01-15" ∧
    ¬ (extractDataFromText "15/13/24").date = none := by
  constructor
  · show extractDate (cleanChars "15/13/24") datePatterns = some "2025-01-15"
    decide
  · show ¬ extractDate (cleanChars "15/13/24") datePatterns = none
    decide

/-- C9 amended: date extraction is a total function of the input (the
embedding has no failure path, matching the source's catch-all), and when no
date pattern matches the date field is absent; but a matched token with
out-of-range components is not rejected — the Date constructor normalizes it
by rollover (see the counterexample), so such tokens yield a present,
rolled-over date. -/
theorem C9_no_match_no_date (s : String)
    (h : ∀ p ∈ datePatterns, reFind p (cleanChars s) = none) :
    (extractDataFromText s).date = none := by
  have h1 := h dateKw (by simp [datePatterns])
  have h2 := h dateDMY (by simp [datePatterns])
  have h3 := h dateYMD (by simp [datePatterns])
  have h4 := h dateText (by simp [datePatterns])
  show extractDate (cleanChars s) datePatterns = none
  simp only [datePatterns, extractDate, h1, h2, h3, h4]

/-- Witness for C9's amended theorem: prose with no date-shaped substring. -/
theorem C9_no_match_no_date_witness :
    (extractDataFromText "hello").date = none :=
  C9_no_match_no_date "hello" (by decide)

end SpendSmart
